import Mathlib

/-!
Verification development for the client-side synchronization core of the
firebase-js-sdk Firestore client: the gRPC connection layer
(packages/firestore/src/platform/node/grpc_connection.ts), the transaction
runner retry policy, and the remote-document change buffer.

The connection layer is embedded directly from grpc_connection.ts.  JS
objects and gRPC metadata are modelled as association lists of string pairs
with JS assignment semantics (setting an existing key overwrites the value
in place, otherwise the pair is appended).
-/

set_option autoImplicit false

namespace Firestore

/-- A domain error, as produced by the FirestoreError constructor:
a domain status code string plus a message. -/
structure FirestoreError where
  code : String
  message : String
  deriving DecidableEq, Repr

/-- A credential token (api/credentials.ts): a token type tag plus the
headers it injects into request metadata. -/
structure Token where
  type : String
  headers : List (String × String)
  deriving DecidableEq, Repr

/-- Lookup of a key in an association list (first occurrence wins, which for
the unique-keyed lists produced by JS objects and gRPC metadata is the only
occurrence). -/
def objGet {α : Type} : List (String × α) → String → Option α
  | [], _ => none
  | p :: rest, k => if p.1 = k then some p.2 else objGet rest k

/-- JS property assignment / grpc.Metadata.set: overwrite the value of an
existing key in place, otherwise append the new pair. -/
def objSet {α : Type} : List (String × α) → String → α → List (String × α)
  | [], k, v => [(k, v)]
  | p :: rest, k, v => if p.1 = k then (k, v) :: rest else p :: objSet rest k v

/-- JS object spread `{ ...base, ...extra }`: assign every pair of `extra`
onto `base`, in order. -/
def objSpread {α : Type} (base extra : List (String × α)) : List (String × α) :=
  List.foldl (fun acc p => objSet acc p.1 p.2) base extra

theorem objGet_objSet_same {α : Type} (o : List (String × α)) (k : String) (v : α) :
    objGet (objSet o k v) k = some v := by
  induction o with
  | nil => simp [objSet, objGet]
  | cons p rest ih =>
    by_cases h : p.1 = k
    · simp [objSet, objGet, h]
    · simp [objSet, objGet, h, ih]

theorem objGet_objSet_other {α : Type} (o : List (String × α)) (k k' : String) (v : α)
    (hne : k' ≠ k) : objGet (objSet o k' v) k = objGet o k := by
  induction o with
  | nil => simp [objSet, objGet, hne]
  | cons p rest ih =>
    by_cases h : p.1 = k'
    · simp [objSet, objGet, h, hne]
    · simp only [objSet, objGet, h, if_false]
      by_cases h2 : p.1 = k
      · simp [objGet, h2]
      · simp [objGet, h2, ih]

theorem objGet_objSpread_not_mem {α : Type} (extra : List (String × α)) (base : List (String × α))
    (k : String) (hk : k ∉ extra.map Prod.fst) :
    objGet (objSpread base extra) k = objGet base k := by
  induction extra generalizing base with
  | nil => rfl
  | cons p rest ih =>
    simp only [List.map_cons, List.mem_cons] at hk
    push_neg at hk
    simpa [objSpread, List.foldl_cons] using
      (ih (objSet base p.1 p.2) hk.2).trans (objGet_objSet_other base k p.1 p.2 (Ne.symm hk.1))

theorem objGet_objSpread {α : Type} (extra : List (String × α)) (base : List (String × α))
    (k : String) (hnd : (extra.map Prod.fst).Nodup) :
    objGet (objSpread base extra) k =
      match objGet extra k with
      | some v => some v
      | none => objGet base k := by
  induction extra generalizing base with
  | nil => rfl
  | cons p rest ih =>
    simp only [List.map_cons, List.nodup_cons] at hnd
    by_cases h : p.1 = k
    · subst h
      have hkr : p.1 ∉ rest.map Prod.fst := hnd.1
      simp only [objSpread, List.foldl_cons, objGet, if_pos rfl]
      have h2 := objGet_objSpread_not_mem rest (objSet base p.1 p.2) p.1 hkr
      simp only [objSpread] at h2
      rw [h2, objGet_objSet_same]
      simp
    · simp only [objSpread, List.foldl_cons, objGet, h, if_neg h]
      have h2 := ih (objSet base p.1 p.2) hnd.2
      simp only [objSpread] at h2
      rw [h2]
      cases hrk : objGet rest k with
      | some v => simp
      | none => simp [objGet_objSet_other base k p.1 p.2 h]

theorem objGet_of_mem_nodup {α : Type} (o : List (String × α)) (k : String) (v : α)
    (hmem : (k, v) ∈ o) (hnd : (o.map Prod.fst).Nodup) : objGet o k = some v := by
  induction o with
  | nil => simp at hmem
  | cons p rest ih =>
    simp only [List.map_cons, List.nodup_cons] at hnd
    rcases List.mem_cons.mp hmem with h | h
    · simp [objGet, ← h]
    · have hne : p.1 ≠ k := by
        intro he
        exact hnd.1 (he ▸ List.mem_map.mpr ⟨(k, v), h, rfl⟩)
      simp [objGet, hne, ih h hnd.2]

/-- The fixed client-identification header value
(`gl-node/<node> fire/<sdk> grpc/<grpc>`); the interpolated versions are
runtime constants, so the whole string is a constant for a given process. -/
def X_GOOG_API_CLIENT_VALUE : String := "gl-node/node fire/sdk grpc/grpc"

/-- The fixed metadata keys set by createMetadata after the token headers. -/
def fixedMetadataKeys : List String :=
  ["X-Firebase-GMPID", "X-Goog-Api-Client", "Google-Cloud-Resource-Prefix",
   "x-goog-request-params"]

/-- The message of the hardAssert in createMetadata. -/
def tokenAssertMessage : String := "If provided, token must be OAuth"

/-- The condition of the hardAssert in createMetadata (line 48): the auth
token is null, or its type is the string OAuth. -/
def tokenOk : Option Token → Bool
  | none => true
  | some t => t.type = "OAuth"

/-- createMetadata (grpc_connection.ts lines 41-70).  The hardAssert that a
non-null auth token has type OAuth is modelled as an `Except.error`
(hardAssert throws, aborting the operation before any request is issued).
Token headers are applied by forEach/set, then the appId header (when the
appId string is truthy, i.e. nonempty), then the fixed client and
database-path headers. -/
def createMetadata (databasePath : String) (authToken appCheckToken : Option Token)
    (appId : String) : Except String (List (String × String)) :=
  if tokenOk authToken = false then
    .error tokenAssertMessage
  else
    let m : List (String × String) := []
    let m := match authToken with
      | some t => objSpread m t.headers
      | none => m
    let m := match appCheckToken with
      | some t => objSpread m t.headers
      | none => m
    let m := if appId ≠ "" then objSet m "X-Firebase-GMPID" appId else m
    let m := objSet m "X-Goog-Api-Client" X_GOOG_API_CLIENT_VALUE
    let m := objSet m "Google-Cloud-Resource-Prefix" databasePath
    let m := objSet m "x-goog-request-params" databasePath
    .ok m

/-- The wire request of invokeRPC (line 122):
`const jsonRequest = { database: this.databasePath, ...request }` — the
connection writes the database field first and the caller-supplied request
fields are spread on top of it. -/
def jsonRequestUnary (databasePath : String) (request : List (String × String)) :
    List (String × String) :=
  objSpread [("database", databasePath)] request

/-- The wire request of invokeStreamingRPC (line 173):
`const jsonRequest = { ...request, database: this.databasePath }` — the
caller-supplied request fields are spread first and the connection
database path is assigned on top of them. -/
def jsonRequestStreaming (databasePath : String) (request : List (String × String)) :
    List (String × String) :=
  objSet (objSpread [] request) "database" databasePath

/-- What an RPC hands to the transport: the metadata and the wire request. -/
structure SentRequest where
  metadata : List (String × String)
  jsonRequest : List (String × String)
  deriving DecidableEq, Repr

/-- Behaviour of the transport for one unary call: the callback is invoked
either with a value or with a gRPC service error (status code + message). -/
inductive TransportOutcome (Resp : Type) where
  | success (v : Resp)
  | failure (code : Nat) (msg : String)
  deriving DecidableEq, Repr

/-- Result of invokeRPC: either the createMetadata hardAssert fired (no
request was issued at all), or the request was sent and the call resolved
with a value, or the request was sent and the call rejected with a domain
FirestoreError.  By construction no raw transport error appears here. -/
inductive RpcResult (Resp : Type) where
  | assertFailed (msg : String)
  | ok (sent : SentRequest) (v : Resp)
  | err (sent : SentRequest) (e : FirestoreError)
  deriving DecidableEq, Repr

/-- invokeRPC (grpc_connection.ts lines 108-149), parameterized by the error
code mapping `mapCodeFromRpcCode` (remote/rpc_error.ts, external to this
embedding).  On transport failure the callback receives
`new FirestoreError(mapCodeFromRpcCode(grpcError.code), grpcError.message)`. -/
def invokeRPC {Resp : Type} (mapCodeFromRpcCode : Nat → String)
    (databasePath appId : String) (authToken appCheckToken : Option Token)
    (request : List (String × String)) (outcome : TransportOutcome Resp) :
    RpcResult Resp :=
  match createMetadata databasePath authToken appCheckToken appId with
  | .error m => .assertFailed m
  | .ok md =>
    let sent : SentRequest := ⟨md, jsonRequestUnary databasePath request⟩
    match outcome with
    | .success v => .ok sent v
    | .failure c msg => .err sent ⟨mapCodeFromRpcCode c, msg⟩

/-- One event on the node stream backing invokeStreamingRPC. -/
inductive StreamEv where
  | data (msg : String)
  | endEv
  | errorEv (code : Nat) (msg : String)
  deriving DecidableEq, Repr

/-- The event handlers of invokeStreamingRPC (lines 175-187): `data` pushes
onto `results`, `end` resolves the deferred with the collected list, `error`
rejects it with the mapped FirestoreError.  The deferred settles at the
first terminal event; `none` means the stream never terminated. -/
def collectStreaming (mapCodeFromRpcCode : Nat → String) :
    List StreamEv → List String → Option (Except FirestoreError (List String))
  | [], _ => none
  | .data msg :: rest, acc => collectStreaming mapCodeFromRpcCode rest (acc ++ [msg])
  | .endEv :: _, acc => some (.ok acc)
  | .errorEv c msg :: _, _ => some (.error ⟨mapCodeFromRpcCode c, msg⟩)

/-- Result of invokeStreamingRPC: the hardAssert may fire during
createMetadata (no request issued), otherwise the request is sent and the
returned promise behaves as `collectStreaming` over the stream events. -/
inductive StreamingRpcResult where
  | assertFailed (msg : String)
  | issued (sent : SentRequest) (outcome : Option (Except FirestoreError (List String)))

/-- invokeStreamingRPC (grpc_connection.ts lines 151-190). -/
def invokeStreamingRPC (mapCodeFromRpcCode : Nat → String)
    (databasePath appId : String) (authToken appCheckToken : Option Token)
    (request : List (String × String)) (events : List StreamEv) :
    StreamingRpcResult :=
  match createMetadata databasePath authToken appCheckToken appId with
  | .error m => .assertFailed m
  | .ok md =>
    .issued ⟨md, jsonRequestStreaming databasePath request⟩
      (collectStreaming mapCodeFromRpcCode events [])

/-- Inputs driving a stream returned by openStream: actions of the owner via
the StreamBridge (send / close), events of the underlying gRPC transport
(data / end / error), and the `setTimeout(0)` timer that fires callOnOpen. -/
inductive StreamIn where
  | ownerSend (msg : String)
  | ownerClose
  | transportData (msg : String)
  | transportEnd
  | transportError (code : Nat) (msg : String)
  | timerOpen
  deriving DecidableEq, Repr

/-- Observable effects of the openStream handlers: callbacks delivered to
the owner (opened / message / closedCb) and actions on the transport
(wrote = grpcStream.write, ended = grpcStream.end). -/
inductive StreamOut where
  | opened
  | message (msg : String)
  | closedCb (err : Option FirestoreError)
  | ended
  | wrote (msg : String)
  deriving DecidableEq, Repr

/-- The local `close` function of openStream (lines 207-214): when not yet
closed, set `closed`, notify the owner via callOnClose with the terminal
error, then tear down the transport via grpcStream.end; otherwise do
nothing.  State is the `closed` flag; the returned list is the effects in
the order the code performs them. -/
def closeStream (err : Option FirestoreError) (closed : Bool) :
    Bool × List StreamOut :=
  if closed then (closed, [])
  else (true, [.closedCb err, .ended])

/-- One step of the openStream machinery (lines 216-263): sendFn writes only
while not closed, the data handler forwards a message only while not closed,
the end handler invokes close(), the error handler invokes close with the
mapped FirestoreError when not closed, and the timer fires callOnOpen
unconditionally. -/
def handleStream (mapCodeFromRpcCode : Nat → String) (closed : Bool) :
    StreamIn → Bool × List StreamOut
  | .ownerSend msg => if closed then (closed, []) else (closed, [.wrote msg])
  | .ownerClose => closeStream none closed
  | .transportData msg => if closed then (closed, []) else (closed, [.message msg])
  | .transportEnd => closeStream none closed
  | .transportError c msg =>
    if closed then (closed, [])
    else closeStream (some ⟨mapCodeFromRpcCode c, msg⟩) closed
  | .timerOpen => (closed, [.opened])

/-- Run the stream machinery over a list of inputs from a given `closed`
state, accumulating the effect trace. -/
def runStreamFrom (mapCodeFromRpcCode : Nat → String) (closed : Bool) :
    List StreamIn → Bool × List StreamOut
  | [] => (closed, [])
  | e :: rest =>
    let step := handleStream mapCodeFromRpcCode closed e
    let tail := runStreamFrom mapCodeFromRpcCode step.1 rest
    (tail.1, step.2 ++ tail.2)

/-- A fresh stream starts with `closed = false` (line 207). -/
def runStream (mapCodeFromRpcCode : Nat → String) (events : List StreamIn) :
    Bool × List StreamOut :=
  runStreamFrom mapCodeFromRpcCode false events

/-- Result of openStream: the hardAssert may fire during createMetadata,
otherwise the stream is created (only metadata is passed to the stub) and
behaves as `runStream` over its inputs. -/
inductive OpenStreamResult where
  | assertFailed (msg : String)
  | issued (metadata : List (String × String)) (run : Bool × List StreamOut)

/-- openStream (grpc_connection.ts lines 193-274). -/
def openStream (mapCodeFromRpcCode : Nat → String) (databasePath appId : String)
    (authToken appCheckToken : Option Token) (events : List StreamIn) :
    OpenStreamResult :=
  match createMetadata databasePath authToken appCheckToken appId with
  | .error m => .assertFailed m
  | .ok md => .issued md (runStream mapCodeFromRpcCode events)

/-- The inputs that trigger the close path: the owner closing the bridge,
the transport ending, or a transport error. -/
def isCloseTrigger : StreamIn → Bool
  | .ownerClose => true
  | .transportEnd => true
  | .transportError _ _ => true
  | _ => false

/-- An incoming transport data event. -/
def isDataEv : StreamIn → Bool
  | .transportData _ => true
  | _ => false

/-- The terminal error delivered by the close path for the trigger that
reaches it first: none for a local close or a natural end, the mapped
FirestoreError for a transport error. -/
def errOfTrigger (mapCodeFromRpcCode : Nat → String) : StreamIn → Option FirestoreError
  | .transportError c msg => some ⟨mapCodeFromRpcCode c, msg⟩
  | _ => none

/-- Count of close callbacks in an effect trace. -/
def countCloseCb (l : List StreamOut) : Nat :=
  List.length (l.filter fun o => match o with | .closedCb _ => true | _ => false)

/-- Count of transport teardowns in an effect trace. -/
def countEnded (l : List StreamOut) : Nat :=
  List.length (l.filter fun o => match o with | .ended => true | _ => false)

/-- Whether an effect trace contains a message callback. -/
def hasMessage (l : List StreamOut) : Bool :=
  l.any fun o => match o with | .message _ => true | _ => false

/-- True when no message callback occurs after the first close callback in
the trace. -/
def msgAfterCloseFree : List StreamOut → Bool
  | [] => true
  | .closedCb _ :: rest => !hasMessage rest
  | _ :: rest => msgAfterCloseFree rest

/-- True when no message callback occurs before the first open callback in
the trace. -/
def msgBeforeOpenFree : List StreamOut → Bool
  | [] => true
  | .message _ :: _ => false
  | .opened :: _ => true
  | _ :: rest => msgBeforeOpenFree rest

/-- Modelled from the spec: the policy constant bounding transaction
attempts (core/transaction_runner.ts is not part of this source tree; the
test file imports DEFAULT_MAX_ATTEMPTS_COUNT from it).  Section 4.3: "Retry
policy: up to a fixed maximum number of attempts (policy constant)". -/
def DEFAULT_MAX_ATTEMPTS_COUNT : Nat := 5

/-- Modelled from the spec: the outcome of one attempt of the user-supplied
transaction function plus its commit (section 4.3 state machine
`Started → Reading → Committing → {Committed | Aborted-Retryable |
Aborted-Fatal}`). -/
inductive AttemptOutcome where
  | committed (v : Nat)
  | abortedRetryable (reason : String)
  | fatal (e : FirestoreError)
  deriving DecidableEq, Repr

/-- Modelled from the spec: the TransactionRunner loop
(core/transaction_runner.ts is not under this source tree).  Section 4.3:
each attempt re-executes the user function from scratch; a
Precondition-Conflict attempt is retried while attempts remain; exceeding
the maximum surfaces a terminal Aborted-Fatal error (domain code "aborted")
carrying the conflict reason; non-retryable failures propagate immediately.
`attemptFn i` is the outcome of attempt number `i` (first attempt = 1);
returns the number of attempts performed and the final result. -/
def runWithAttempts (attemptFn : Nat → AttemptOutcome) :
    Nat → Nat → Nat × Except FirestoreError Nat
  | 0, used => (used, .error ⟨"internal", "no attempts granted"⟩)
  | remaining + 1, used =>
    match attemptFn (used + 1) with
    | .committed v => (used + 1, .ok v)
    | .fatal e => (used + 1, .error e)
    | .abortedRetryable reason =>
      if remaining = 0 then (used + 1, .error ⟨"aborted", reason⟩)
      else runWithAttempts attemptFn remaining (used + 1)

/-- Modelled from the spec: TransactionRunner.run with the default attempt
budget. -/
def runTransactionRunner (attemptFn : Nat → AttemptOutcome) :
    Nat × Except FirestoreError Nat :=
  runWithAttempts attemptFn DEFAULT_MAX_ATTEMPTS_COUNT 0

/-- Modelled from the spec: the backend state seen by optimistic
transactions — a counter document value and the LogicalVersion of its last
committed write (sections 3 and 4.3). -/
structure ServerState where
  val : Nat
  ver : Nat
  deriving DecidableEq, Repr

/-- Modelled from the spec: a commit conditioned on the captured read
version still matching the server version (section 4.3); on match the write
is applied and the version advances, otherwise the attempt is
Aborted-Retryable (Precondition-Conflict). -/
def commitConditional (s : ServerState) (readVer : Nat) (newVal : Nat) :
    ServerState × Bool :=
  if readVer = s.ver then (⟨newVal, s.ver + 1⟩, true) else (s, false)

/-- Modelled from the spec: one increment transaction that captured `read`
before the gate released and now commits against server state `s`; on a
Precondition-Conflict it retries from scratch with a fresh read of the
current state (retries are serialized on the cooperative queue, so the
fresh read is still current at the retried commit).  Returns the new server
state and the number of attempts this transaction used. -/
def runIncrementTxn (s : ServerState) (read : ServerState) : ServerState × Nat :=
  let first := commitConditional s read.ver (read.val + 1)
  if first.2 then (first.1, 1)
  else
    let retry := commitConditional s s.ver (s.val + 1)
    (retry.1, 2)

/-- Modelled from the spec: n concurrent increment transactions that all
read the initial state `s0` before a shared gate released (section 8), whose
commits are then processed one at a time by the single-threaded queue.
Returns the final server state and the total number of commit attempts. -/
def runConcurrentIncrements (s0 : ServerState) (n : Nat) : ServerState × Nat :=
  List.foldl
    (fun acc _ =>
      let r := runIncrementTxn acc.1 s0
      (r.1, acc.2 + r.2))
    (s0, 0) (List.range n)

/-- A cached document: its version and payload (the payload size feeds the
cache size accounting). -/
structure StoredDoc where
  version : Nat
  payload : String
  deriving DecidableEq, Repr

/-- The byte footprint a stored document contributes to the cache size. -/
def docSize (d : StoredDoc) : Nat := d.payload.length

/-- Modelled from the spec: an invalid/unknown sentinel returned for keys
absent from the cache (section 4.1: getEntry never throws for a missing
key). -/
def missingSentinel : StoredDoc := ⟨0, ""⟩

/-- Modelled from the spec: RemoteDocumentChangeBuffer
(local/remote_document_change_buffer.ts is not under this source tree; only
its test caller TestRemoteDocumentCache is).  `readDocuments` records the
prior state of every key read through the buffer in this transaction;
`changes` holds the staged writes (section 4.2). -/
structure ChangeBuffer where
  readDocuments : List (String × StoredDoc)
  changes : List (String × StoredDoc)
  deriving DecidableEq, Repr

/-- A fresh change buffer (newChangeBuffer). -/
def emptyChangeBuffer : ChangeBuffer := ⟨[], []⟩

/-- Modelled from the spec: the Programming-Error raised when addEntry is
invoked for a key that was not read through the buffer first (sections 4.2
and 7). -/
def readBeforeWriteError : String :=
  "Cannot modify a document that was not read first"

/-- Modelled from the spec: ChangeBuffer.getEntry — return the pending
buffered state if present, otherwise the cache entry (sentinel when
absent), and record the observed prior state so later writes have a size
baseline (section 4.2). -/
def bufferGetEntry (cache : List (String × StoredDoc)) (b : ChangeBuffer)
    (key : String) : ChangeBuffer × StoredDoc :=
  let d := match objGet b.changes key with
    | some d => d
    | none =>
      match objGet cache key with
      | some d => d
      | none => missingSentinel
  ({ b with readDocuments := objSet b.readDocuments key d }, d)

/-- Modelled from the spec: ChangeBuffer.addEntry — stage an add/update; a
key that was never read through this buffer is a Programming-Error
(section 4.2). -/
def bufferAddEntry (b : ChangeBuffer) (key : String) (doc : StoredDoc) :
    Except String ChangeBuffer :=
  match objGet b.readDocuments key with
  | some _ => .ok { b with changes := objSet b.changes key doc }
  | none => .error readBeforeWriteError

/-- Modelled from the spec: the cache-size delta computed by apply — for
every staged change, the new size minus the size of the prior state
recorded at read time; `none` when some staged key has no recorded prior
state (the situation the read-before-write rule excludes; the size would
otherwise have to be assumed, section 4.1 getSize). -/
def bufferApplyDelta (b : ChangeBuffer) : Option Int :=
  List.foldl
    (fun acc change =>
      match acc, objGet b.readDocuments change.1 with
      | some a, some prior => some (a + (docSize change.2 : Int) - (docSize prior : Int))
      | _, _ => none)
    (some 0) b.changes

/-- An operation performed through a change buffer inside one transaction. -/
inductive BufOp where
  | read (key : String)
  | add (key : String) (doc : StoredDoc)
  deriving DecidableEq, Repr

/-- Run a sequence of buffer operations against a cache, failing at the
first Programming-Error. -/
def runBufOps (cache : List (String × StoredDoc)) (b : ChangeBuffer) :
    List BufOp → Except String ChangeBuffer
  | [] => .ok b
  | .read k :: rest => runBufOps cache (bufferGetEntry cache b k).1 rest
  | .add k d :: rest =>
    match bufferAddEntry b k d with
    | .ok b2 => runBufOps cache b2 rest
    | .error e => .error e

theorem handleStream_fst (mc : Nat → String) (s : Bool) (e : StreamIn) :
    (handleStream mc s e).1 = (s || isCloseTrigger e) := by
  cases e <;> cases s <;> simp [handleStream, closeStream, isCloseTrigger]

theorem handleStream_closed (mc : Nat → String) (e : StreamIn) :
    handleStream mc true e = (true, if e = .timerOpen then [.opened] else []) := by
  cases e <;> simp [handleStream, closeStream]

theorem handleStream_trigger (mc : Nat → String) (e : StreamIn)
    (h : isCloseTrigger e = true) :
    handleStream mc false e = (true, [.closedCb (errOfTrigger mc e), .ended]) := by
  cases e <;> simp_all [handleStream, closeStream, isCloseTrigger, errOfTrigger]

theorem countCloseCb_handle (mc : Nat → String) (s : Bool) (e : StreamIn) :
    countCloseCb (handleStream mc s e).2 =
      if s then 0 else if isCloseTrigger e then 1 else 0 := by
  cases e <;> cases s <;> simp [handleStream, closeStream, isCloseTrigger, countCloseCb]

theorem countEnded_handle (mc : Nat → String) (s : Bool) (e : StreamIn) :
    countEnded (handleStream mc s e).2 =
      if s then 0 else if isCloseTrigger e then 1 else 0 := by
  cases e <;> cases s <;> simp [handleStream, closeStream, isCloseTrigger, countEnded]

theorem hasMessage_handle (mc : Nat → String) (s : Bool) (e : StreamIn) :
    hasMessage (handleStream mc s e).2 = (!s && isDataEv e) := by
  cases e <;> cases s <;> simp [handleStream, closeStream, isDataEv, hasMessage]

theorem runStreamFrom_fst (mc : Nat → String) (evs : List StreamIn) (s : Bool) :
    (runStreamFrom mc s evs).1 = (s || evs.any isCloseTrigger) := by
  induction evs generalizing s with
  | nil => simp [runStreamFrom]
  | cons e rest ih =>
    simp only [runStreamFrom, List.any_cons]
    rw [ih, handleStream_fst, Bool.or_assoc]

theorem runStreamFrom_append (mc : Nat → String) (a b : List StreamIn) (s : Bool) :
    runStreamFrom mc s (a ++ b) =
      ((runStreamFrom mc (runStreamFrom mc s a).1 b).1,
       (runStreamFrom mc s a).2 ++ (runStreamFrom mc (runStreamFrom mc s a).1 b).2) := by
  induction a generalizing s with
  | nil => simp [runStreamFrom]
  | cons e rest ih => simp [runStreamFrom, ih]

theorem countCloseCb_append (a b : List StreamOut) :
    countCloseCb (a ++ b) = countCloseCb a + countCloseCb b := by
  simp [countCloseCb, List.filter_append]

theorem countEnded_append (a b : List StreamOut) :
    countEnded (a ++ b) = countEnded a + countEnded b := by
  simp [countEnded, List.filter_append]

theorem hasMessage_append (a b : List StreamOut) :
    hasMessage (a ++ b) = (hasMessage a || hasMessage b) := by
  simp [hasMessage, List.any_append]

theorem countCloseCb_run (mc : Nat → String) (evs : List StreamIn) (s : Bool) :
    countCloseCb (runStreamFrom mc s evs).2 =
      if s then 0 else if evs.any isCloseTrigger then 1 else 0 := by
  induction evs generalizing s with
  | nil => simp [runStreamFrom, countCloseCb]
  | cons e rest ih =>
    simp only [runStreamFrom, List.any_cons]
    rw [countCloseCb_append, countCloseCb_handle, ih, handleStream_fst]
    by_cases he : isCloseTrigger e = true
    · cases s <;> simp [he]
    · rw [Bool.not_eq_true] at he
      cases s <;> simp [he]

theorem countEnded_run (mc : Nat → String) (evs : List StreamIn) (s : Bool) :
    countEnded (runStreamFrom mc s evs).2 =
      if s then 0 else if evs.any isCloseTrigger then 1 else 0 := by
  induction evs generalizing s with
  | nil => simp [runStreamFrom, countEnded]
  | cons e rest ih =>
    simp only [runStreamFrom, List.any_cons]
    rw [countEnded_append, countEnded_handle, ih, handleStream_fst]
    by_cases he : isCloseTrigger e = true
    · cases s <;> simp [he]
    · rw [Bool.not_eq_true] at he
      cases s <;> simp [he]

theorem hasMessage_run_closed (mc : Nat → String) (evs : List StreamIn) :
    hasMessage (runStreamFrom mc true evs).2 = false := by
  induction evs with
  | nil => simp [runStreamFrom, hasMessage]
  | cons e rest ih =>
    simp only [runStreamFrom]
    rw [hasMessage_append, hasMessage_handle]
    have hs : (handleStream mc true e).1 = true := by rw [handleStream_fst]; simp
    rw [hs, ih]
    simp

theorem hasMessage_run_noData (mc : Nat → String) (evs : List StreamIn) (s : Bool)
    (h : evs.all (fun e => !isDataEv e) = true) :
    hasMessage (runStreamFrom mc s evs).2 = false := by
  induction evs generalizing s with
  | nil => simp [runStreamFrom, hasMessage]
  | cons e rest ih =>
    simp only [List.all_cons, Bool.and_eq_true] at h
    simp only [runStreamFrom]
    rw [hasMessage_append, hasMessage_handle, ih _ h.2]
    have : isDataEv e = false := by
      cases hde : isDataEv e
      · rfl
      · rw [hde] at h; simp at h
    simp [this]

theorem msgAfterCloseFree_append_noClose (a b : List StreamOut)
    (h : countCloseCb a = 0) :
    msgAfterCloseFree (a ++ b) = msgAfterCloseFree b := by
  induction a with
  | nil => simp
  | cons o rest ih =>
    cases o with
    | closedCb e => simp [countCloseCb] at h
    | opened =>
      rw [List.cons_append]
      simp only [msgAfterCloseFree]
      exact ih (by simpa [countCloseCb] using h)
    | message m =>
      rw [List.cons_append]
      simp only [msgAfterCloseFree]
      exact ih (by simpa [countCloseCb] using h)
    | ended =>
      rw [List.cons_append]
      simp only [msgAfterCloseFree]
      exact ih (by simpa [countCloseCb] using h)
    | wrote m =>
      rw [List.cons_append]
      simp only [msgAfterCloseFree]
      exact ih (by simpa [countCloseCb] using h)

theorem hasMessage_cons_ended (l : List StreamOut) :
    hasMessage (.ended :: l) = hasMessage l := by
  simp [hasMessage]

theorem msgAfterCloseFree_run (mc : Nat → String) (evs : List StreamIn) :
    msgAfterCloseFree (runStreamFrom mc false evs).2 = true := by
  induction evs with
  | nil => simp [runStreamFrom, msgAfterCloseFree]
  | cons e rest ih =>
    simp only [runStreamFrom]
    cases he : isCloseTrigger e
    · have hcc : countCloseCb (handleStream mc false e).2 = 0 := by
        rw [countCloseCb_handle]; simp [he]
      have hs : (handleStream mc false e).1 = false := by
        rw [handleStream_fst]; simp [he]
      rw [msgAfterCloseFree_append_noClose _ _ hcc, hs]
      exact ih
    · rw [handleStream_trigger mc e he]
      simp only [msgAfterCloseFree, List.cons_append, List.nil_append]
      rw [show ([StreamOut.ended].append (runStreamFrom mc true rest).2) =
            StreamOut.ended :: (runStreamFrom mc true rest).2 from rfl]
      rw [hasMessage_cons_ended, hasMessage_run_closed]
      rfl

theorem msgBeforeOpenFree_append (a b : List StreamOut)
    (h : hasMessage a = false) :
    msgBeforeOpenFree (a ++ .opened :: b) = true := by
  induction a with
  | nil => rfl
  | cons o rest ih =>
    cases o with
    | message m => simp [hasMessage] at h
    | opened => rfl
    | closedCb e =>
      rw [List.cons_append]
      simp only [msgBeforeOpenFree]
      exact ih (by simpa [hasMessage] using h)
    | ended =>
      rw [List.cons_append]
      simp only [msgBeforeOpenFree]
      exact ih (by simpa [hasMessage] using h)
    | wrote m =>
      rw [List.cons_append]
      simp only [msgBeforeOpenFree]
      exact ih (by simpa [hasMessage] using h)

theorem get_append_cons_self {α : Type} (A : List α) (x : α) (R : List α) :
    (A ++ x :: R).get? A.length = some x := by
  induction A with
  | nil => rfl
  | cons a rest ih => simpa [List.get?] using ih

theorem get_append_cons_succ {α : Type} (A : List α) (x y : α) (R : List α) :
    (A ++ x :: y :: R).get? (A.length + 1) = some y := by
  induction A with
  | nil => rfl
  | cons a rest ih => simpa [List.get?] using ih

/-- C3: on every stream returned by openStream, for every sequence of close
invocations (owner close, transport error, or natural end-of-stream), only
the first invocation has any effect: the close callback of the owner fires
exactly once, carrying the terminal error of that first invocation, the
underlying transport is torn down exactly once and immediately after that
notification, and all later close invocations are ignored. -/
theorem openStream_close_first_only (mc : Nat → String)
    (events pre post : List StreamIn) (trig : StreamIn)
    (hsplit : events = pre ++ trig :: post)
    (hpre : pre.all (fun e => !isCloseTrigger e) = true)
    (htrig : isCloseTrigger trig = true) :
    countCloseCb (runStream mc events).2 = 1 ∧
    countEnded (runStream mc events).2 = 1 ∧
    ∃ k, (runStream mc events).2.get? k =
           some (.closedCb (errOfTrigger mc trig)) ∧
         (runStream mc events).2.get? (k + 1) = some .ended := by
  subst hsplit
  have hany : (pre ++ trig :: post).any isCloseTrigger = true :=
    List.any_eq_true.mpr
      ⟨trig, List.mem_append.mpr (Or.inr (List.mem_cons_self _ _)), htrig⟩
  have hanypre : pre.any isCloseTrigger = false := by
    cases h : pre.any isCloseTrigger
    · rfl
    · rcases List.any_eq_true.mp h with ⟨x, hx, hxt⟩
      have h2 := List.all_eq_true.mp hpre x hx
      rw [hxt] at h2
      simp at h2
  have hA1 : (runStreamFrom mc false pre).1 = false := by
    rw [runStreamFrom_fst, hanypre]
    rfl
  have htrace : (runStream mc (pre ++ trig :: post)).2 =
      (runStreamFrom mc false pre).2 ++
        (StreamOut.closedCb (errOfTrigger mc trig) :: StreamOut.ended ::
          (runStreamFrom mc true post).2) := by
    rw [runStream, runStreamFrom_append, hA1]
    simp only [runStreamFrom]
    rw [handleStream_trigger mc trig htrig]
    rfl
  refine ⟨?_, ?_, ?_⟩
  · rw [runStream, countCloseCb_run, hany]
    rfl
  · rw [runStream, countEnded_run, hany]
    rfl
  · refine ⟨(runStreamFrom mc false pre).2.length, ?_, ?_⟩
    · rw [htrace]
      exact get_append_cons_self _ _ _
    · rw [htrace]
      exact get_append_cons_succ _ _ _ _

/-- C4: on every stream returned by openStream — given that the callOnOpen
timer enqueued at stream creation is delivered before any transport data
event — no message callback fires before the open callback, the close
callback fires exactly once (assuming some close trigger occurs), and no
message callback fires after the close callback (transport data arriving
after close is dropped). -/
theorem openStream_open_first_close_once (mc : Nat → String)
    (events pre post : List StreamIn)
    (hsplit : events = pre ++ .timerOpen :: post)
    (hpre : pre.all (fun e => !isDataEv e) = true)
    (hclose : events.any isCloseTrigger = true) :
    msgBeforeOpenFree (runStream mc events).2 = true ∧
    countCloseCb (runStream mc events).2 = 1 ∧
    msgAfterCloseFree (runStream mc events).2 = true := by
  subst hsplit
  have htrace : (runStream mc (pre ++ .timerOpen :: post)).2 =
      (runStreamFrom mc false pre).2 ++
        (StreamOut.opened ::
          (runStreamFrom mc (runStreamFrom mc false pre).1 post).2) := by
    rw [runStream, runStreamFrom_append]
    simp only [runStreamFrom, handleStream]
    rfl
  refine ⟨?_, ?_, ?_⟩
  · rw [htrace]
    exact msgBeforeOpenFree_append _ _ (hasMessage_run_noData mc pre false hpre)
  · rw [runStream, countCloseCb_run, hclose]
    rfl
  · exact msgAfterCloseFree_run mc _

/-- C7: on every stream returned by openStream, sending a message after the
stream is closed is a no-op: the run including the late send has exactly
the same final state and the same effect trace (in particular nothing is
written to the transport and no error is raised). -/
theorem openStream_send_after_close_noop (mc : Nat → String)
    (events : List StreamIn) (msg : String)
    (h : events.any isCloseTrigger = true) :
    runStream mc (events ++ [.ownerSend msg]) = runStream mc events := by
  have h1 : (runStreamFrom mc false events).1 = true := by
    rw [runStreamFrom_fst, h]
    rfl
  rw [runStream, runStreamFrom_append, h1]
  have h2 : runStreamFrom mc true [StreamIn.ownerSend msg] = (true, []) := by
    simp [runStreamFrom, handleStream]
  rw [h2]
  simp only [List.append_nil, runStream]
  rw [← h1]

/-- Witness for C3 at a concrete trace: a send and a data event, then a
transport error, then two more close invocations that are ignored. -/
theorem openStream_close_first_only_witness :
    ([StreamIn.ownerSend "w", StreamIn.transportData "m"].all
        (fun e => !isCloseTrigger e) = true) ∧
    (isCloseTrigger (StreamIn.transportError 14 "socket closed") = true) ∧
    (countCloseCb (runStream (fun _ => "unavailable")
        ([StreamIn.ownerSend "w", StreamIn.transportData "m"] ++
          StreamIn.transportError 14 "socket closed" ::
            [StreamIn.ownerClose, StreamIn.transportEnd])).2 = 1 ∧
     countEnded (runStream (fun _ => "unavailable")
        ([StreamIn.ownerSend "w", StreamIn.transportData "m"] ++
          StreamIn.transportError 14 "socket closed" ::
            [StreamIn.ownerClose, StreamIn.transportEnd])).2 = 1 ∧
     ∃ k, (runStream (fun _ => "unavailable")
        ([StreamIn.ownerSend "w", StreamIn.transportData "m"] ++
          StreamIn.transportError 14 "socket closed" ::
            [StreamIn.ownerClose, StreamIn.transportEnd])).2.get? k =
           some (.closedCb (errOfTrigger (fun _ => "unavailable")
             (StreamIn.transportError 14 "socket closed"))) ∧
          (runStream (fun _ => "unavailable")
        ([StreamIn.ownerSend "w", StreamIn.transportData "m"] ++
          StreamIn.transportError 14 "socket closed" ::
            [StreamIn.ownerClose, StreamIn.transportEnd])).2.get? (k + 1) =
           some .ended) :=
  ⟨by decide, by decide,
   openStream_close_first_only (fun _ => "unavailable")
     ([StreamIn.ownerSend "w", StreamIn.transportData "m"] ++
       StreamIn.transportError 14 "socket closed" ::
         [StreamIn.ownerClose, StreamIn.transportEnd])
     [StreamIn.ownerSend "w", StreamIn.transportData "m"]
     [StreamIn.ownerClose, StreamIn.transportEnd]
     (StreamIn.transportError 14 "socket closed") rfl (by decide) (by decide)⟩

/-- Witness for C4 at a concrete trace: a pre-open send, the open timer,
then data, a close, and dropped post-close data. -/
theorem openStream_open_first_close_once_witness :
    ([StreamIn.ownerSend "w"].all (fun e => !isDataEv e) = true) ∧
    (([StreamIn.ownerSend "w"] ++ StreamIn.timerOpen ::
        [StreamIn.transportData "m", StreamIn.ownerClose,
         StreamIn.transportData "late"]).any isCloseTrigger = true) ∧
    (msgBeforeOpenFree (runStream (fun _ => "unavailable")
        ([StreamIn.ownerSend "w"] ++ StreamIn.timerOpen ::
          [StreamIn.transportData "m", StreamIn.ownerClose,
           StreamIn.transportData "late"])).2 = true ∧
     countCloseCb (runStream (fun _ => "unavailable")
        ([StreamIn.ownerSend "w"] ++ StreamIn.timerOpen ::
          [StreamIn.transportData "m", StreamIn.ownerClose,
           StreamIn.transportData "late"])).2 = 1 ∧
     msgAfterCloseFree (runStream (fun _ => "unavailable")
        ([StreamIn.ownerSend "w"] ++ StreamIn.timerOpen ::
          [StreamIn.transportData "m", StreamIn.ownerClose,
           StreamIn.transportData "late"])).2 = true) :=
  ⟨by decide, by decide,
   openStream_open_first_close_once (fun _ => "unavailable")
     ([StreamIn.ownerSend "w"] ++ StreamIn.timerOpen ::
       [StreamIn.transportData "m", StreamIn.ownerClose,
        StreamIn.transportData "late"])
     [StreamIn.ownerSend "w"]
     [StreamIn.transportData "m", StreamIn.ownerClose,
      StreamIn.transportData "late"] rfl (by decide) (by decide)⟩

/-- Witness for C7 at a concrete trace: a send after an owner close changes
nothing. -/
theorem openStream_send_after_close_noop_witness :
    (([StreamIn.timerOpen, StreamIn.ownerClose]).any isCloseTrigger = true) ∧
    runStream (fun _ => "unavailable")
        ([StreamIn.timerOpen, StreamIn.ownerClose] ++ [.ownerSend "late"]) =
      runStream (fun _ => "unavailable") [StreamIn.timerOpen, StreamIn.ownerClose] :=
  ⟨by decide,
   openStream_send_after_close_noop (fun _ => "unavailable")
     [StreamIn.timerOpen, StreamIn.ownerClose] "late" (by decide)⟩

theorem collectStreaming_datas (mc : Nat → String) (msgs acc : List String) :
    collectStreaming mc (msgs.map .data ++ [.endEv]) acc = some (.ok (acc ++ msgs)) := by
  induction msgs generalizing acc with
  | nil => simp [collectStreaming]
  | cons m rest ih =>
    simp only [List.map_cons, List.cons_append, collectStreaming]
    have h2 := ih (acc ++ [m])
    rw [List.append_assoc] at h2
    exact h2

theorem collectStreaming_error (mc : Nat → String) (preMsgs : List String)
    (c : Nat) (emsg : String) (post : List StreamEv) (acc : List String) :
    collectStreaming mc (preMsgs.map .data ++ .errorEv c emsg :: post) acc =
      some (.error ⟨mc c, emsg⟩) := by
  induction preMsgs generalizing acc with
  | nil => simp [collectStreaming]
  | cons m rest ih =>
    simp only [List.map_cons, List.cons_append, collectStreaming]
    exact ih _

/-- C5: an invokeStreamingRPC call whose stream ends naturally after
emitting messages m1..mk resolves exactly once with the full ordered list
[m1..mk]; a mid-stream transport error makes the promise reject with a
domain FirestoreError whose code is mapped from the transport status code,
and no partial list of messages reaches the caller (the rejection carries
only the mapped error). -/
theorem invokeStreamingRPC_collects_or_aborts (mc : Nat → String)
    (dbPath appId : String) (auth appCheck : Option Token)
    (request md : List (String × String))
    (msgs preMsgs : List String) (c : Nat) (emsg : String) (post : List StreamEv)
    (hmd : createMetadata dbPath auth appCheck appId = .ok md) :
    invokeStreamingRPC mc dbPath appId auth appCheck request
        (msgs.map .data ++ [.endEv]) =
      .issued ⟨md, jsonRequestStreaming dbPath request⟩ (some (.ok msgs)) ∧
    invokeStreamingRPC mc dbPath appId auth appCheck request
        (preMsgs.map .data ++ .errorEv c emsg :: post) =
      .issued ⟨md, jsonRequestStreaming dbPath request⟩
        (some (.error ⟨mc c, emsg⟩)) := by
  unfold invokeStreamingRPC
  rw [hmd]
  constructor
  · rw [collectStreaming_datas]
    simp
  · rw [collectStreaming_error]

/-- Witness for C5 at concrete inputs: a two-message stream that ends
naturally, and a stream that errors after one message. -/
theorem invokeStreamingRPC_collects_or_aborts_witness :
    createMetadata "projects/p/databases/d" none none "app" =
      .ok [("X-Firebase-GMPID", "app"),
           ("X-Goog-Api-Client", X_GOOG_API_CLIENT_VALUE),
           ("Google-Cloud-Resource-Prefix", "projects/p/databases/d"),
           ("x-goog-request-params", "projects/p/databases/d")] ∧
    (invokeStreamingRPC (fun _ => "unavailable") "projects/p/databases/d" "app"
        none none [("parent", "x")] (List.map .data ["a", "b"] ++ [.endEv]) =
      .issued ⟨[("X-Firebase-GMPID", "app"),
                ("X-Goog-Api-Client", X_GOOG_API_CLIENT_VALUE),
                ("Google-Cloud-Resource-Prefix", "projects/p/databases/d"),
                ("x-goog-request-params", "projects/p/databases/d")],
               jsonRequestStreaming "projects/p/databases/d" [("parent", "x")]⟩
        (some (.ok ["a", "b"])) ∧
     invokeStreamingRPC (fun _ => "unavailable") "projects/p/databases/d" "app"
        none none [("parent", "x")]
        (List.map .data ["a"] ++ .errorEv 14 "socket closed" :: [.data "z"]) =
      .issued ⟨[("X-Firebase-GMPID", "app"),
                ("X-Goog-Api-Client", X_GOOG_API_CLIENT_VALUE),
                ("Google-Cloud-Resource-Prefix", "projects/p/databases/d"),
                ("x-goog-request-params", "projects/p/databases/d")],
               jsonRequestStreaming "projects/p/databases/d" [("parent", "x")]⟩
        (some (.error ⟨"unavailable", "socket closed"⟩))) :=
  ⟨rfl,
   invokeStreamingRPC_collects_or_aborts (fun _ => "unavailable")
     "projects/p/databases/d" "app" none none [("parent", "x")]
     [("X-Firebase-GMPID", "app"),
      ("X-Goog-Api-Client", X_GOOG_API_CLIENT_VALUE),
      ("Google-Cloud-Resource-Prefix", "projects/p/databases/d"),
      ("x-goog-request-params", "projects/p/databases/d")]
     ["a", "b"] ["a"] 14 "socket closed" [.data "z"] rfl⟩

/-- C9: supplying a non-null auth token whose type is not OAuth makes the
createMetadata hardAssert fail, so invokeRPC, invokeStreamingRPC and
openStream all abort with the assertion before any request reaches the
transport (the assertFailed results carry no SentRequest and no transport
interaction). -/
theorem nonOAuth_token_asserts {Resp : Type} (mc : Nat → String)
    (dbPath appId : String) (tok : Token) (appCheck : Option Token)
    (request : List (String × String)) (outcome : TransportOutcome Resp)
    (sevents : List StreamEv) (events : List StreamIn)
    (h : tok.type ≠ "OAuth") :
    createMetadata dbPath (some tok) appCheck appId = .error tokenAssertMessage ∧
    invokeRPC mc dbPath appId (some tok) appCheck request outcome =
      .assertFailed tokenAssertMessage ∧
    invokeStreamingRPC mc dbPath appId (some tok) appCheck request sevents =
      .assertFailed tokenAssertMessage ∧
    openStream mc dbPath appId (some tok) appCheck events =
      .assertFailed tokenAssertMessage := by
  have hbad : tokenOk (some tok) = false := by
    simp [tokenOk, h]
  have hcm : createMetadata dbPath (some tok) appCheck appId =
      .error tokenAssertMessage := by
    unfold createMetadata
    rw [hbad]
    rfl
  refine ⟨hcm, ?_, ?_, ?_⟩
  · unfold invokeRPC
    rw [hcm]
  · unfold invokeStreamingRPC
    rw [hcm]
  · unfold openStream
    rw [hcm]

/-- Witness for C9 at a concrete first-party token. -/
theorem nonOAuth_token_asserts_witness :
    ((⟨"FirstParty", [("authorization", "Bearer t")]⟩ : Token).type ≠ "OAuth") ∧
    (createMetadata "projects/p/databases/d"
        (some ⟨"FirstParty", [("authorization", "Bearer t")]⟩) none "app" =
      .error tokenAssertMessage ∧
     invokeRPC (fun _ => "unavailable") "projects/p/databases/d" "app"
        (some ⟨"FirstParty", [("authorization", "Bearer t")]⟩) none
        [("parent", "x")] (TransportOutcome.success (0 : Nat)) =
      .assertFailed tokenAssertMessage ∧
     invokeStreamingRPC (fun _ => "unavailable") "projects/p/databases/d" "app"
        (some ⟨"FirstParty", [("authorization", "Bearer t")]⟩) none
        [("parent", "x")] [.endEv] =
      .assertFailed tokenAssertMessage ∧
     openStream (fun _ => "unavailable") "projects/p/databases/d" "app"
        (some ⟨"FirstParty", [("authorization", "Bearer t")]⟩) none
        [.timerOpen] =
      .assertFailed tokenAssertMessage) :=
  ⟨by decide,
   nonOAuth_token_asserts (fun _ => "unavailable") "projects/p/databases/d" "app"
     ⟨"FirstParty", [("authorization", "Bearer t")]⟩ none [("parent", "x")]
     (TransportOutcome.success (0 : Nat)) [.endEv] [.timerOpen] (by decide)⟩

/-- C10 counterexample: the claim asserts that for EVERY request payload
containing a database key the two operations send different wire requests;
but when the caller-supplied database value equals the connection
database path, invokeRPC and invokeStreamingRPC build identical wire
requests. -/
theorem invoke_database_precedence_cex :
    objGet [("database", "projects/p/databases/d")] "database" ≠ none ∧
    jsonRequestUnary "projects/p/databases/d"
        [("database", "projects/p/databases/d")] =
      jsonRequestStreaming "projects/p/databases/d"
        [("database", "projects/p/databases/d")] := by
  constructor
  · decide
  · rfl

/-- C10 (amended): invokeRPC spreads the caller request over the database
field, so a caller-supplied database value wins there, while
invokeStreamingRPC assigns the connection database path over the caller
request, so the connection database path wins there; and whenever the
caller-supplied database value differs from the connection database path,
the two operations send different wire requests. -/
theorem invoke_database_precedence (dbPath v : String)
    (req : List (String × String))
    (hnd : (req.map Prod.fst).Nodup)
    (hv : objGet req "database" = some v)
    (hne : v ≠ dbPath) :
    objGet (jsonRequestUnary dbPath req) "database" = some v ∧
    objGet (jsonRequestStreaming dbPath req) "database" = some dbPath ∧
    jsonRequestUnary dbPath req ≠ jsonRequestStreaming dbPath req := by
  have hu : objGet (jsonRequestUnary dbPath req) "database" = some v := by
    unfold jsonRequestUnary
    rw [objGet_objSpread req _ _ hnd, hv]
  have hs : objGet (jsonRequestStreaming dbPath req) "database" = some dbPath := by
    unfold jsonRequestStreaming
    exact objGet_objSet_same _ _ _
  refine ⟨hu, hs, ?_⟩
  intro heq
  rw [heq, hs] at hu
  exact hne (Option.some.inj hu).symm

/-- Witness for the amended C10 at a concrete request whose database field
differs from the path of the connection. -/
theorem invoke_database_precedence_witness :
    (([("database", "projects/other/databases/x")] :
        List (String × String)).map Prod.fst).Nodup ∧
    objGet [("database", "projects/other/databases/x")] "database" =
      some "projects/other/databases/x" ∧
    ("projects/other/databases/x" ≠ "projects/p/databases/d") ∧
    (objGet (jsonRequestUnary "projects/p/databases/d"
        [("database", "projects/other/databases/x")]) "database" =
      some "projects/other/databases/x" ∧
     objGet (jsonRequestStreaming "projects/p/databases/d"
        [("database", "projects/other/databases/x")]) "database" =
      some "projects/p/databases/d" ∧
     jsonRequestUnary "projects/p/databases/d"
        [("database", "projects/other/databases/x")] ≠
       jsonRequestStreaming "projects/p/databases/d"
        [("database", "projects/other/databases/x")]) :=
  ⟨by decide, by decide, by decide,
   invoke_database_precedence "projects/p/databases/d"
     "projects/other/databases/x" [("database", "projects/other/databases/x")]
     (by decide) (by decide) (by decide)⟩

theorem objGet_after_fixed (m2 : List (String × String)) (appId dbPath : String)
    (k : String) (hk : k ∉ fixedMetadataKeys) :
    objGet (objSet (objSet (objSet
        (if appId ≠ "" then objSet m2 "X-Firebase-GMPID" appId else m2)
        "X-Goog-Api-Client" X_GOOG_API_CLIENT_VALUE)
        "Google-Cloud-Resource-Prefix" dbPath)
        "x-goog-request-params" dbPath) k = objGet m2 k := by
  simp only [fixedMetadataKeys, List.mem_cons, List.not_mem_nil, or_false,
    not_or] at hk
  obtain ⟨h1, h2, h3, h4⟩ := hk
  rw [objGet_objSet_other _ _ _ _ (Ne.symm h4),
      objGet_objSet_other _ _ _ _ (Ne.symm h3),
      objGet_objSet_other _ _ _ _ (Ne.symm h2)]
  by_cases happ : appId = ""
  · simp [happ]
  · rw [if_pos happ]
    exact objGet_objSet_other _ _ _ _ (Ne.symm h1)

/-- C6: every invokeRPC call carries in its request metadata the auth token
headers and the app-check token headers (when the tokens are non-null and
their header keys do not collide with each other or with the reserved
metadata keys), the fixed client-identification header, and the
project/database path string; and every transport-level failure surfaces as
a domain FirestoreError whose code is mapped from the transport status
code — the result type admits no raw transport error. -/
theorem invokeRPC_metadata_and_error_mapping (mc : Nat → String)
    (dbPath appId : String) (authTok appCheckTok : Token)
    (request md : List (String × String))
    (hAnd : (authTok.headers.map Prod.fst).Nodup)
    (hCnd : (appCheckTok.headers.map Prod.fst).Nodup)
    (hAdisj : ∀ k ∈ authTok.headers.map Prod.fst,
        k ∉ appCheckTok.headers.map Prod.fst ∧ k ∉ fixedMetadataKeys)
    (hCdisj : ∀ k ∈ appCheckTok.headers.map Prod.fst, k ∉ fixedMetadataKeys)
    (hmd : createMetadata dbPath (some authTok) (some appCheckTok) appId = .ok md) :
    (∀ kv ∈ authTok.headers, objGet md kv.1 = some kv.2) ∧
    (∀ kv ∈ appCheckTok.headers, objGet md kv.1 = some kv.2) ∧
    objGet md "X-Goog-Api-Client" = some X_GOOG_API_CLIENT_VALUE ∧
    objGet md "Google-Cloud-Resource-Prefix" = some dbPath ∧
    objGet md "x-goog-request-params" = some dbPath ∧
    (∀ (c : Nat) (emsg : String),
      @invokeRPC Nat mc dbPath appId (some authTok) (some appCheckTok)
          request (TransportOutcome.failure c emsg) =
        .err ⟨md, jsonRequestUnary dbPath request⟩ ⟨mc c, emsg⟩) := by
  have hmd0 := hmd
  unfold createMetadata at hmd
  cases htok : tokenOk (some authTok) with
  | false =>
    rw [htok] at hmd
    simp at hmd
  | true =>
    rw [htok] at hmd
    simp only [Bool.true_eq_false, if_false, Except.ok.injEq] at hmd
    subst hmd
    refine ⟨?_, ?_, ?_, ?_, ?_, ?_⟩
    · intro kv hkv
      have hmem : kv.1 ∈ authTok.headers.map Prod.fst :=
        List.mem_map.mpr ⟨kv, hkv, rfl⟩
      obtain ⟨hnotac, hnotfix⟩ := hAdisj kv.1 hmem
      rw [objGet_after_fixed _ _ _ _ hnotfix,
          objGet_objSpread_not_mem _ _ _ hnotac,
          objGet_objSpread _ _ _ hAnd,
          objGet_of_mem_nodup _ _ _ hkv hAnd]
    · intro kv hkv
      have hmem : kv.1 ∈ appCheckTok.headers.map Prod.fst :=
        List.mem_map.mpr ⟨kv, hkv, rfl⟩
      have hnotfix := hCdisj kv.1 hmem
      rw [objGet_after_fixed _ _ _ _ hnotfix,
          objGet_objSpread _ _ _ hCnd,
          objGet_of_mem_nodup _ _ _ hkv hCnd]
    · rw [objGet_objSet_other _ _ _ _ (by decide),
          objGet_objSet_other _ _ _ _ (by decide),
          objGet_objSet_same]
    · rw [objGet_objSet_other _ _ _ _ (by decide), objGet_objSet_same]
    · rw [objGet_objSet_same]
    · intro c emsg
      unfold invokeRPC
      rw [hmd0]

/-- Witness for C6 at concrete tokens and a concrete transport failure. -/
theorem invokeRPC_metadata_and_error_mapping_witness :
    ((([("authorization", "Bearer abc")] : List (String × String)).map
        Prod.fst).Nodup) ∧
    ((([("x-firebase-appcheck", "tok")] : List (String × String)).map
        Prod.fst).Nodup) ∧
    (∀ k ∈ ([("authorization", "Bearer abc")] :
        List (String × String)).map Prod.fst,
      k ∉ ([("x-firebase-appcheck", "tok")] :
        List (String × String)).map Prod.fst ∧ k ∉ fixedMetadataKeys) ∧
    (∀ k ∈ ([("x-firebase-appcheck", "tok")] :
        List (String × String)).map Prod.fst, k ∉ fixedMetadataKeys) ∧
    createMetadata "projects/p/databases/d"
        (some ⟨"OAuth", [("authorization", "Bearer abc")]⟩)
        (some ⟨"AppCheck", [("x-firebase-appcheck", "tok")]⟩) "app" =
      .ok [("authorization", "Bearer abc"), ("x-firebase-appcheck", "tok"),
           ("X-Firebase-GMPID", "app"),
           ("X-Goog-Api-Client", X_GOOG_API_CLIENT_VALUE),
           ("Google-Cloud-Resource-Prefix", "projects/p/databases/d"),
           ("x-goog-request-params", "projects/p/databases/d")] ∧
    ((∀ kv ∈ (⟨"OAuth", [("authorization", "Bearer abc")]⟩ : Token).headers,
        objGet [("authorization", "Bearer abc"), ("x-firebase-appcheck", "tok"),
           ("X-Firebase-GMPID", "app"),
           ("X-Goog-Api-Client", X_GOOG_API_CLIENT_VALUE),
           ("Google-Cloud-Resource-Prefix", "projects/p/databases/d"),
           ("x-goog-request-params", "projects/p/databases/d")] kv.1 = some kv.2) ∧
     (∀ kv ∈ (⟨"AppCheck", [("x-firebase-appcheck", "tok")]⟩ : Token).headers,
        objGet [("authorization", "Bearer abc"), ("x-firebase-appcheck", "tok"),
           ("X-Firebase-GMPID", "app"),
           ("X-Goog-Api-Client", X_GOOG_API_CLIENT_VALUE),
           ("Google-Cloud-Resource-Prefix", "projects/p/databases/d"),
           ("x-goog-request-params", "projects/p/databases/d")] kv.1 = some kv.2) ∧
     objGet [("authorization", "Bearer abc"), ("x-firebase-appcheck", "tok"),
           ("X-Firebase-GMPID", "app"),
           ("X-Goog-Api-Client", X_GOOG_API_CLIENT_VALUE),
           ("Google-Cloud-Resource-Prefix", "projects/p/databases/d"),
           ("x-goog-request-params", "projects/p/databases/d")]
         "X-Goog-Api-Client" = some X_GOOG_API_CLIENT_VALUE ∧
     objGet [("authorization", "Bearer abc"), ("x-firebase-appcheck", "tok"),
           ("X-Firebase-GMPID", "app"),
           ("X-Goog-Api-Client", X_GOOG_API_CLIENT_VALUE),
           ("Google-Cloud-Resource-Prefix", "projects/p/databases/d"),
           ("x-goog-request-params", "projects/p/databases/d")]
         "Google-Cloud-Resource-Prefix" = some "projects/p/databases/d" ∧
     objGet [("authorization", "Bearer abc"), ("x-firebase-appcheck", "tok"),
           ("X-Firebase-GMPID", "app"),
           ("X-Goog-Api-Client", X_GOOG_API_CLIENT_VALUE),
           ("Google-Cloud-Resource-Prefix", "projects/p/databases/d"),
           ("x-goog-request-params", "projects/p/databases/d")]
         "x-goog-request-params" = some "projects/p/databases/d" ∧
     (∀ (c : Nat) (emsg : String),
       @invokeRPC Nat (fun _ => "unavailable") "projects/p/databases/d" "app"
           (some ⟨"OAuth", [("authorization", "Bearer abc")]⟩)
           (some ⟨"AppCheck", [("x-firebase-appcheck", "tok")]⟩)
           [("parent", "x")] (TransportOutcome.failure c emsg) =
         .err ⟨[("authorization", "Bearer abc"), ("x-firebase-appcheck", "tok"),
           ("X-Firebase-GMPID", "app"),
           ("X-Goog-Api-Client", X_GOOG_API_CLIENT_VALUE),
           ("Google-Cloud-Resource-Prefix", "projects/p/databases/d"),
           ("x-goog-request-params", "projects/p/databases/d")],
               jsonRequestUnary "projects/p/databases/d" [("parent", "x")]⟩
           ⟨(fun _ => "unavailable") c, emsg⟩)) :=
  ⟨by decide, by decide, by decide, by decide, rfl,
   invokeRPC_metadata_and_error_mapping (fun _ => "unavailable")
     "projects/p/databases/d" "app"
     ⟨"OAuth", [("authorization", "Bearer abc")]⟩
     ⟨"AppCheck", [("x-firebase-appcheck", "tok")]⟩
     [("parent", "x")]
     [("authorization", "Bearer abc"), ("x-firebase-appcheck", "tok"),
      ("X-Firebase-GMPID", "app"),
      ("X-Goog-Api-Client", X_GOOG_API_CLIENT_VALUE),
      ("Google-Cloud-Resource-Prefix", "projects/p/databases/d"),
      ("x-goog-request-params", "projects/p/databases/d")]
     (by decide) (by decide) (by decide) (by decide) rfl⟩

theorem runWithAttempts_le (attemptFn : Nat → AttemptOutcome) (rem used : Nat) :
    (runWithAttempts attemptFn rem used).1 ≤ used + rem := by
  induction rem generalizing used with
  | zero => simp [runWithAttempts]
  | succ r ih =>
    cases hfn : attemptFn (used + 1) with
    | committed v => simp [runWithAttempts, hfn]
    | fatal e => simp [runWithAttempts, hfn]
    | abortedRetryable reason =>
      by_cases hr : r = 0
      · simp [runWithAttempts, hfn, hr]
      · simp only [runWithAttempts, hfn, if_neg hr]
        have h2 := ih (used + 1)
        omega

theorem runWithAttempts_all_aborted (attemptFn : Nat → AttemptOutcome)
    (reason : Nat → String)
    (hall : ∀ i, attemptFn i = .abortedRetryable (reason i)) (rem used : Nat)
    (h : 1 ≤ rem) :
    runWithAttempts attemptFn rem used =
      (used + rem, .error ⟨"aborted", reason (used + rem)⟩) := by
  induction rem generalizing used with
  | zero => omega
  | succ r ih =>
    by_cases hr : r = 0
    · simp [runWithAttempts, hall (used + 1), hr]
    · simp only [runWithAttempts, hall (used + 1), if_neg hr]
      have h2 := ih (used + 1) (by omega)
      rw [h2]
      have h3 : used + 1 + r = used + (r + 1) := by omega
      rw [h3]

/-- C1: a transaction whose commit keeps failing with a read-version
conflict is retried at most DEFAULT_MAX_ATTEMPTS_COUNT times — the attempt
count never exceeds the policy constant for any attempt behaviour — and
exhausting the attempts surfaces a single terminal Aborted-Fatal error with
domain code aborted carrying the conflict reason (of the last attempt),
rather than retrying indefinitely. -/
theorem transactionRunner_bounded_attempts (attemptFn : Nat → AttemptOutcome)
    (reason : Nat → String)
    (hall : ∀ i, attemptFn i = .abortedRetryable (reason i)) :
    (∀ fn : Nat → AttemptOutcome,
       (runTransactionRunner fn).1 ≤ DEFAULT_MAX_ATTEMPTS_COUNT) ∧
    runTransactionRunner attemptFn =
      (DEFAULT_MAX_ATTEMPTS_COUNT,
       .error ⟨"aborted", reason DEFAULT_MAX_ATTEMPTS_COUNT⟩) := by
  constructor
  · intro fn
    have h := runWithAttempts_le fn DEFAULT_MAX_ATTEMPTS_COUNT 0
    simpa [runTransactionRunner] using h
  · have h := runWithAttempts_all_aborted attemptFn reason hall
      DEFAULT_MAX_ATTEMPTS_COUNT 0 (by simp [DEFAULT_MAX_ATTEMPTS_COUNT])
    simpa [runTransactionRunner] using h

/-- Witness for C1: every attempt aborts with the same conflict reason;
after exactly DEFAULT_MAX_ATTEMPTS_COUNT attempts the runner surfaces the
terminal aborted error carrying it. -/
theorem transactionRunner_bounded_attempts_witness :
    (∀ i : Nat, (fun _ : Nat => AttemptOutcome.abortedRetryable
        "read version mismatch") i =
      .abortedRetryable ((fun _ : Nat => "read version mismatch") i)) ∧
    ((∀ fn : Nat → AttemptOutcome,
        (runTransactionRunner fn).1 ≤ DEFAULT_MAX_ATTEMPTS_COUNT) ∧
     runTransactionRunner
        (fun _ => AttemptOutcome.abortedRetryable "read version mismatch") =
      (DEFAULT_MAX_ATTEMPTS_COUNT,
       .error ⟨"aborted", "read version mismatch"⟩)) :=
  ⟨fun _ => rfl,
   transactionRunner_bounded_attempts
     (fun _ => AttemptOutcome.abortedRetryable "read version mismatch")
     (fun _ => "read version mismatch") (fun _ => rfl)⟩

theorem runIncrementTxn_from (s0 : ServerState) (n : Nat) :
    runIncrementTxn ⟨s0.val + n, s0.ver + n⟩ s0 =
      (⟨s0.val + n + 1, s0.ver + n + 1⟩, if n = 0 then 1 else 2) := by
  cases n with
  | zero => simp [runIncrementTxn, commitConditional]
  | succ m =>
    have hne : s0.ver ≠ s0.ver + (m + 1) := by omega
    simp [runIncrementTxn, commitConditional, hne]

theorem runConcurrentIncrements_spec (s0 : ServerState) (n : Nat) :
    runConcurrentIncrements s0 n =
      (⟨s0.val + n, s0.ver + n⟩, if n = 0 then 0 else 2 * n - 1) := by
  induction n with
  | zero =>
    simp [runConcurrentIncrements]
  | succ m ih =>
    unfold runConcurrentIncrements at ih ⊢
    rw [List.range_succ, List.foldl_append, ih]
    simp only [List.foldl_cons, List.foldl_nil]
    rw [runIncrementTxn_from]
    by_cases hm : m = 0
    · subst hm
      simp
    · simp only [if_neg hm, if_neg (Nat.succ_ne_zero m)]
      refine Prod.ext rfl ?_
      show 2 * m - 1 + 2 = 2 * (m + 1) - 1
      omega

/-- C2: n concurrent transactions that all read the same counter before a
shared gate releases and then write value+1 all eventually commit — the
serialized commits form a linear chain of n increments, conflicting
attempts being retried after a Precondition-Conflict — so the final value
is the start plus n and the final version advanced by n; in particular a
start of 5 with three concurrent increments yields 8, at the cost of
2n-1 total commit attempts. -/
theorem concurrent_increments_linear (s0 : ServerState) (n : Nat) :
    (runConcurrentIncrements s0 n).1 = ⟨s0.val + n, s0.ver + n⟩ ∧
    (runConcurrentIncrements s0 n).2 = (if n = 0 then 0 else 2 * n - 1) ∧
    (runConcurrentIncrements ⟨5, 0⟩ 3).1.val = 8 := by
  refine ⟨?_, ?_, ?_⟩
  · rw [runConcurrentIncrements_spec]
  · rw [runConcurrentIncrements_spec]
  · rw [runConcurrentIncrements_spec]

theorem objGet_isSome_objSet {α : Type} (o : List (String × α)) (k k' : String)
    (v : α) (h : (objGet o k).isSome) : (objGet (objSet o k' v) k).isSome := by
  by_cases he : k' = k
  · subst he
    rw [objGet_objSet_same]
    rfl
  · rw [objGet_objSet_other _ _ _ _ he]
    exact h

/-- Every key staged in the buffer has a recorded prior read. -/
def changesCovered (b : ChangeBuffer) : Prop :=
  ∀ k, (objGet b.changes k).isSome → (objGet b.readDocuments k).isSome

theorem changesCovered_getEntry (cache : List (String × StoredDoc))
    (b : ChangeBuffer) (key : String) (h : changesCovered b) :
    changesCovered (bufferGetEntry cache b key).1 := by
  intro k hk
  have hk2 : (objGet b.changes k).isSome := hk
  exact objGet_isSome_objSet _ _ _ _ (h k hk2)

theorem runBufOps_covered (cache : List (String × StoredDoc)) (ops : List BufOp)
    (b b2 : ChangeBuffer) (hcov : changesCovered b)
    (hrun : runBufOps cache b ops = .ok b2) : changesCovered b2 := by
  induction ops generalizing b with
  | nil =>
    simp only [runBufOps, Except.ok.injEq] at hrun
    exact hrun ▸ hcov
  | cons op rest ih =>
    cases op with
    | read k =>
      exact ih _ (changesCovered_getEntry cache b k hcov) hrun
    | add k d =>
      simp only [runBufOps] at hrun
      cases hadd : bufferAddEntry b k d with
      | error e => rw [hadd] at hrun; exact absurd hrun (by simp)
      | ok b3 =>
        rw [hadd] at hrun
        refine ih b3 ?_ hrun
        unfold bufferAddEntry at hadd
        cases hrd : objGet b.readDocuments k with
        | none => rw [hrd] at hadd; simp at hadd
        | some prior =>
          rw [hrd] at hadd
          simp only [Except.ok.injEq] at hadd
          subst hadd
          intro k2 hk2
          simp only at hk2 ⊢
          by_cases he : k = k2
          · subst he
            rw [hrd]
            rfl
          · rw [objGet_objSet_other _ _ _ _ he] at hk2
            exact hcov k2 hk2

theorem foldDelta_some (reads : List (String × StoredDoc))
    (changes : List (String × StoredDoc)) (a : Int)
    (h : ∀ c ∈ changes, (objGet reads c.1).isSome) :
    (List.foldl
      (fun acc change =>
        match acc, objGet reads change.1 with
        | some a, some prior =>
          some (a + (docSize change.2 : Int) - (docSize prior : Int))
        | _, _ => none)
      (some a) changes).isSome := by
  induction changes generalizing a with
  | nil => rfl
  | cons c rest ih =>
    have hc := h c (List.mem_cons_self _ _)
    cases hrd : objGet reads c.1 with
    | none => rw [hrd] at hc; exact absurd hc (by simp)
    | some prior =>
      simp only [List.foldl_cons, hrd]
      exact ih _ (fun c2 hc2 => h c2 (List.mem_cons_of_mem _ hc2))

theorem objGet_isSome_of_mem {α : Type} (o : List (String × α)) (k : String)
    (v : α) (h : (k, v) ∈ o) : (objGet o k).isSome := by
  induction o with
  | nil => simp at h
  | cons p rest ih =>
    rcases List.mem_cons.mp h with h1 | h1
    · simp [objGet, ← h1]
    · by_cases he : p.1 = k
      · simp [objGet, he]
      · simp only [objGet, if_neg he]
        exact ih h1

/-- C8: addEntry on a change buffer demands that the key was read first
through the buffer in the same transaction — staging a key that was never
read is the Programming-Error, staging a read key succeeds — and for any
buffer built by a sequence of reads and (successful) adds from a fresh
buffer, the cache-size delta of apply is computable because every staged
key has a recorded prior state; it is never assumed. -/
theorem changeBuffer_read_before_write (b : ChangeBuffer) (key : String)
    (doc : StoredDoc) (cache : List (String × StoredDoc)) (ops : List BufOp)
    (b2 : ChangeBuffer)
    (hunread : objGet b.readDocuments key = none)
    (hrun : runBufOps cache emptyChangeBuffer ops = .ok b2) :
    bufferAddEntry b key doc = .error readBeforeWriteError ∧
    (∀ (key2 : String) (doc2 : StoredDoc) (prior : StoredDoc),
       objGet b.readDocuments key2 = some prior →
       bufferAddEntry b key2 doc2 =
         .ok { b with changes := objSet b.changes key2 doc2 }) ∧
    (bufferApplyDelta b2).isSome := by
  refine ⟨?_, ?_, ?_⟩
  · unfold bufferAddEntry
    rw [hunread]
  · intro key2 doc2 prior hprior
    unfold bufferAddEntry
    rw [hprior]
  · have hcov : changesCovered b2 := by
      refine runBufOps_covered cache ops emptyChangeBuffer b2 ?_ hrun
      intro k hk
      simp [emptyChangeBuffer, objGet] at hk
    unfold bufferApplyDelta
    refine foldDelta_some _ _ _ ?_
    intro c hc
    exact hcov c.1 (objGet_isSome_of_mem _ _ _ hc)

/-- Witness for C8: adding an unread key is the Programming-Error; a
read-then-add sequence from a fresh buffer yields a computable size delta. -/
theorem changeBuffer_read_before_write_witness :
    objGet (emptyChangeBuffer.readDocuments) "k" = none ∧
    runBufOps [("a", ⟨3, "za"⟩)] emptyChangeBuffer
        [.read "a", .add "a" ⟨4, "longer"⟩] =
      .ok ⟨[("a", ⟨3, "za"⟩)], [("a", ⟨4, "longer"⟩)]⟩ ∧
    (bufferAddEntry emptyChangeBuffer "k" ⟨1, "x"⟩ =
        .error readBeforeWriteError ∧
     (∀ (key2 : String) (doc2 : StoredDoc) (prior : StoredDoc),
        objGet emptyChangeBuffer.readDocuments key2 = some prior →
        bufferAddEntry emptyChangeBuffer key2 doc2 =
          .ok { emptyChangeBuffer with
                changes := objSet emptyChangeBuffer.changes key2 doc2 }) ∧
     (bufferApplyDelta ⟨[("a", ⟨3, "za"⟩)], [("a", ⟨4, "longer"⟩)]⟩).isSome) :=
  ⟨rfl, rfl,
   changeBuffer_read_before_write emptyChangeBuffer "k" ⟨1, "x"⟩
     [("a", ⟨3, "za"⟩)] [.read "a", .add "a" ⟨4, "longer"⟩]
     ⟨[("a", ⟨3, "za"⟩)], [("a", ⟨4, "longer"⟩)]⟩ rfl rfl⟩

end Firestore
